import Mathlib

/-!
# Verification of the Spotify-Genre-Tracker local persistence and tracking core

A shallow embedding of the migration engine (`src/database/__init__.py`,
`DatabaseManager.migration_upgrade` / `migration_rollback` / `_apply_migration_file`),
the genre repository operations (`increment_genre_listen_time`, `create_new_genre`),
and the listening tracker loop (`src/cli/__init__.py`,
`Program._currently_listening_update_loop`), together with theorems settling the
behavioural claims about them.

Modelling conventions:
* Python strings used as file names are modelled as `List Char`; SQL text stays `String`.
* Python `int` is `Int`; `datetime.timedelta` values are modelled by their exact count of
  microseconds (an `Int`), which is how CPython stores them.  `timedelta.seconds` is the
  seconds component of the normalised `(days, seconds, microseconds)` triple, see
  `tdSeconds` below.
* The SQLite store touched by migrations is abstracted to the list of committed SQL
  statements plus the `PRAGMA user_version` integer; executing a statement appends it.
  Commit semantics follow Python sqlite3's legacy autocommit mode (the default the code
  runs under): before a DML statement (leading keyword INSERT/UPDATE/DELETE/REPLACE,
  matched case-insensitively, exactly CPython's lexical check) an implicit transaction
  is opened if none is active, and every statement executed while a transaction is open
  joins it; a non-DML statement (DDL, `PRAGMA user_version = n`) executed with no open
  transaction runs in autocommit mode and persists immediately, even if the connection
  later closes without commit.  `connection.commit()` publishes the open transaction's
  work; an exception propagating out of the `with DatabaseManager()` block closes the
  connection without committing, discarding only the open transaction's pending work.
* `os.scandir` yields directory entries in an unspecified order; the order is therefore
  an input of the embedding (`List DirEntry`).
-/

/-- One entry of the migration directory: its file name (a Python string, as a char
list) and the lines of its contents. -/
structure DirEntry where
  name : List Char
  lines : List String
deriving Repr, DecidableEq

/-- First position, scanning left to right, holding three consecutive decimal digits:
the embedding of `re.compile("[0-9]{3}").search(name)`. -/
def find3 : List Char → Option (Char × Char × Char)
  | [] => none
  | a :: rest =>
    match rest with
    | b :: c :: _ =>
      if a.isDigit && b.isDigit && c.isDigit then some (a, b, c) else find3 rest
    | _ => none

/-- Numeric value of the first three-digit run of a migration file name:
`int(file_index_re.search(file.name).group(0))`.  The code only evaluates this on
names that passed the `[0-9]{3}_up.sql` / `[0-9]{3}_down.sql` filter, where a run is
always found; `0` is returned in the impossible no-match case. -/
def fileIndexOf (name : List Char) : Int :=
  match find3 name with
  | some (a, b, c) => ((a.toNat - 48) * 100 + (b.toNat - 48) * 10 + (c.toNat - 48) : Nat)
  | none => 0

/-- Embedding of `re.compile("[0-9]{3}_up.sql").match(name)`: anchored at the start,
`.` matches any character except a newline, the tail of the name is unconstrained. -/
def matchesUpL (name : List Char) : Bool :=
  match name with
  | d0 :: d1 :: d2 :: u3 :: u4 :: u5 :: dot :: s7 :: s8 :: s9 :: _ =>
    d0.isDigit && d1.isDigit && d2.isDigit &&
    (u3 == '_') && (u4 == 'u') && (u5 == 'p') && (dot != '\n') &&
    (s7 == 's') && (s8 == 'q') && (s9 == 'l')
  | _ => false

/-- Embedding of `re.compile("[0-9]{3}_down.sql").match(name)`. -/
def matchesDownL (name : List Char) : Bool :=
  match name with
  | d0 :: d1 :: d2 :: u3 :: u4 :: u5 :: u6 :: u7 :: dot :: s9 :: s10 :: s11 :: _ =>
    d0.isDigit && d1.isDigit && d2.isDigit &&
    (u3 == '_') && (u4 == 'd') && (u5 == 'o') && (u6 == 'w') && (u7 == 'n') &&
    (dot != '\n') && (s9 == 's') && (s10 == 'q') && (s11 == 'l')
  | _ => false

/-- Python `str.strip()` on an ASCII SQL line: drop whitespace from both ends. -/
def stripChars (cs : List Char) : List Char :=
  ((cs.dropWhile Char.isWhitespace).reverse.dropWhile Char.isWhitespace).reverse

/-- Whether a stripped line begins with the SQL comment marker `--`
(`line.startswith("--")`). -/
def startsDashDash : List Char → Bool
  | '-' :: '-' :: _ => true
  | _ => false

/-- Whether a stripped line ends in a semicolon (`line.endswith(";")`). -/
def lastIsSemicolon (cs : List Char) : Bool :=
  match cs.getLast? with
  | some c => c == ';'
  | none => false

/-- Statement accumulation of `DatabaseManager._apply_migration_file`: lines are
stripped; empty lines and `--` comments are skipped; stripped lines are appended to the
pending command followed by a space; a line ending in `;` flushes the pending command
as one executed statement; leftover non-blank text is executed as a final statement. -/
def parseGo : List String → String → List String
  | [], acc => if stripChars acc.data = [] then [] else [acc]
  | line :: rest, acc =>
    let l := stripChars line.data
    if l = [] || startsDashDash l then parseGo rest acc
    else
      let acc2 := acc ++ ⟨l⟩ ++ " "
      if lastIsSemicolon l then acc2 :: parseGo rest "" else parseGo rest acc2

/-- The ordered SQL statements a migration file's lines produce. -/
def parseStatements (lines : List String) : List String :=
  parseGo lines ""

/-- The committed contents of the schema store: the `PRAGMA user_version` marker and
the abstract store state, taken as the list of SQL statements committed so far. -/
structure MigDbState where
  version : Int
  store : List String
deriving Repr, DecidableEq

/-- Observable outcome of one `migration_upgrade` / `migration_rollback` call:
the committed state after the call (on a raise, the autocommitted work persists while
the open transaction's pending work is discarded by the close without commit), the
exception that propagated to the caller if any, the console messages reported in error
style or as final status, and the SQL statements executed during the call (whether or
not they were committed). -/
structure MigResult where
  state : MigDbState
  raised : Option String
  reported : List String
  executed : List String
deriving Repr, DecidableEq

/-- Case-insensitive keyword prefix test, as CPython's
`PyOS_strnicmp(p, "insert", 6) == 0` performs it. -/
def startsWithCI : List Char → List Char → Bool
  | [], _ => true
  | _ :: _, [] => false
  | k :: ks, c :: cs => (c.toLower == k) && startsWithCI ks cs

/-- CPython sqlite3's lexical DML check (`pysqlite_statement_create`): skip blanks,
then test case-insensitively whether the statement begins with
INSERT/UPDATE/DELETE/REPLACE.  Only such statements open (or require) an implicit
transaction in legacy autocommit mode; everything else — DDL, `PRAGMA`, `SELECT` —
runs in autocommit mode when no transaction is open. -/
def isDML (stmt : String) : Bool :=
  let p := stmt.data.dropWhile fun c => c == ' ' || c == '\r' || c == '\n' || c == '\t'
  startsWithCI "insert".data p || startsWithCI "update".data p ||
    startsWithCI "delete".data p || startsWithCI "replace".data p

/-- The sqlite connection during one migration call: the committed database state,
the connection's view of the store and version (committed plus any open transaction's
pending changes), and whether an implicit transaction is open.  When no transaction
is open the pending view equals the committed state. -/
structure MigSession where
  committed : MigDbState
  pendingVersion : Int
  pendingStore : List String
  txOpen : Bool
deriving Repr, DecidableEq

/-- A freshly opened connection: no transaction, pending view equals the store. -/
def sessionStart (st : MigDbState) : MigSession :=
  { committed := st, pendingVersion := st.version, pendingStore := st.store, txOpen := false }

/-- `cursor.execute(stmt)` for a migration statement: inside an open transaction the
statement's effect is pending; a DML statement with no open transaction first opens
the implicit transaction (so its effect is pending too); any other statement with no
open transaction autocommits, changing the committed store immediately. -/
def execStmt (s : MigSession) (stmt : String) : MigSession :=
  if s.txOpen then { s with pendingStore := s.pendingStore ++ [stmt] }
  else if isDML stmt then
    { s with txOpen := true, pendingStore := s.pendingStore ++ [stmt] }
  else
    { committed := { version := s.committed.version, store := s.committed.store ++ [stmt] },
      pendingVersion := s.pendingVersion, pendingStore := s.pendingStore ++ [stmt],
      txOpen := false }

/-- Executing a migration file's parsed statements in order. -/
def execStmts (s : MigSession) (stmts : List String) : MigSession :=
  stmts.foldl execStmt s

/-- `cursor.execute(f"PRAGMA user_version = {n}")`: `PRAGMA` is not DML, so with an
open transaction the version write is pending (the header change rolls back with the
transaction); with no open transaction it autocommits. -/
def execSetVersion (s : MigSession) (n : Int) : MigSession :=
  if s.txOpen then { s with pendingVersion := n }
  else
    { committed := { version := n, store := s.committed.store },
      pendingVersion := n, pendingStore := s.pendingStore, txOpen := false }

/-- `connection.commit()`: publish the connection's pending view. -/
def commitAll (s : MigSession) : MigDbState :=
  { version := s.pendingVersion, store := s.pendingStore }

/-- Closing the connection without commit (the `__exit__` path after a raise):
the open transaction's pending work is discarded, but everything autocommitted
earlier stays. -/
def closeDiscard (s : MigSession) : MigDbState :=
  s.committed

def upgradeErrMsg (n : Int) : String :=
  "Migration with ID " ++ toString n ++ " not found. Rolled back all migrations."

def rollbackErrMsg (n : Int) : String :=
  "Rollback with ID " ++ toString n ++ " not found. Rolled back all migrations."

def noPendingMsg : String := "No pending migrations!"

def allAppliedMsg : String :=
  "All migrations applied successfully. The database is up to date!"

def alreadyAtVersionMsg (v : Int) : String :=
  "Database already in version " ++ toString v ++ ". No changes have been made."

def futureVersionMsg (v target : Int) : String :=
  "Cannot rollback migration to future version. Current database version: "
    ++ toString v ++ " Rollback version: " ++ toString target

def notEnoughFilesMsg (target : Int) : String :=
  "Not enough rollback files found to rollback to version " ++ toString target ++ "."

/-- The `for index, migration_file in enumerate(up_files)` loop of
`migration_upgrade`: files whose index is at most the running version are skipped;
a file whose index is exactly `index + 1` is applied (its parsed statements are
executed on the connection, then the running version is incremented via
`PRAGMA user_version`); otherwise an `IndexError` naming `index + 1` is raised.
Returns (raised exception if any, final running version, statements executed so
far, connection state). -/
def upgradeGo :
    List DirEntry → Nat → Int → List String → MigSession →
      Option String × Int × List String × MigSession
  | [], _, mv, acc, s => (none, mv, acc, s)
  | f :: rest, idx, mv, acc, s =>
    let fi := fileIndexOf f.name
    if fi ≤ mv then upgradeGo rest (idx + 1) mv acc s
    else if fi = (idx : Int) + 1 then
      let stmts := parseStatements f.lines
      upgradeGo rest (idx + 1) (mv + 1) (acc ++ stmts)
        (execSetVersion (execStmts s stmts) (mv + 1))
    else (some (upgradeErrMsg ((idx : Int) + 1)), mv, acc, s)

/-- Embedding of `DatabaseManager.migration_upgrade`.  `dir` is the directory listing
in the order `os.scandir` yields it.  Filters the listing through the
`[0-9]{3}_up.sql` pattern, returns early reporting "No pending migrations!" when the
current version is at least the number of upgrade files, otherwise runs the
enumerate loop on a fresh connection; on success `connection.commit()` publishes the
connection's pending view, on an `IndexError` the connection closes without commit,
keeping whatever autocommitted and discarding the open transaction's pending work. -/
def migration_upgrade (dir : List DirEntry) (st : MigDbState) : MigResult :=
  let upFiles := dir.filter fun f => matchesUpL f.name
  if st.version ≥ (upFiles.length : Int) then
    { state := st, raised := none, reported := [noPendingMsg], executed := [] }
  else
    match upgradeGo upFiles 0 st.version [] (sessionStart st) with
    | (none, _, stmts, s) =>
      { state := commitAll s, raised := none, reported := [allAppliedMsg],
        executed := stmts }
    | (some e, _, stmts, s) =>
      { state := closeDiscard s, raised := some e, reported := [], executed := stmts }

/-- Lexicographic order on Python strings (code-point comparison). -/
def lexLt : List Char → List Char → Bool
  | [], [] => false
  | [], _ :: _ => true
  | _ :: _, [] => false
  | a :: as, b :: bs => if a = b then lexLt as bs else decide (a < b)

/-- Insert an entry into a list sorted descending by name. -/
def insertDesc (f : DirEntry) : List DirEntry → List DirEntry
  | [] => [f]
  | g :: rest => if lexLt g.name f.name then f :: g :: rest else g :: insertDesc f rest

/-- `down_files.sort(reverse=True, key=lambda file: file.name)` (directory entries
have pairwise distinct names, so any correct descending sort agrees with Python's). -/
def sortDescByName (files : List DirEntry) : List DirEntry :=
  files.foldr insertDesc []

/-- The `for migration_file in down_files` loop of `migration_rollback`: stops when
the running version reaches the target; applies a file whose index equals the running
version (statements executed on the connection, then `PRAGMA user_version` set to the
decremented version); raises an `IndexError` naming the running version otherwise. -/
def rollbackGo :
    List DirEntry → Int → Int → List String → MigSession →
      Option String × Int × List String × MigSession
  | [], mv, _, acc, s => (none, mv, acc, s)
  | f :: rest, mv, target, acc, s =>
    if mv = target then (none, mv, acc, s)
    else
      let fi := fileIndexOf f.name
      if fi = mv then
        let stmts := parseStatements f.lines
        rollbackGo rest (mv - 1) target (acc ++ stmts)
          (execSetVersion (execStmts s stmts) (mv - 1))
      else (some (rollbackErrMsg mv), mv, acc, s)

/-- Embedding of `DatabaseManager.migration_rollback`.  Reports an error and changes
nothing when the store is already at the target version or the target is in the
future; filters and descending-sorts the `[0-9]{3}_down.sql` files; reports an error
and changes nothing when their count differs from `current_version - target_version`;
otherwise applies the loop on a fresh connection, committing on success; when the
loop raises, the close without commit keeps whatever autocommitted (a downgrade
script's DDL and the version decrements run outside any open transaction persist)
and discards only an open transaction's pending work. -/
def migration_rollback (dir : List DirEntry) (st : MigDbState) (target : Int) : MigResult :=
  if st.version = target then
    { state := st, raised := none, reported := [alreadyAtVersionMsg st.version], executed := [] }
  else if st.version < target then
    { state := st, raised := none, reported := [futureVersionMsg st.version target], executed := [] }
  else
    let downFiles := sortDescByName (dir.filter fun f => matchesDownL f.name)
    if st.version - target ≠ (downFiles.length : Int) then
      { state := st, raised := none, reported := [notEnoughFilesMsg target], executed := [] }
    else
      match rollbackGo downFiles st.version target [] (sessionStart st) with
      | (none, _, stmts, s) =>
        { state := commitAll s, raised := none, reported := [], executed := stmts }
      | (some e, _, stmts, s) =>
        { state := closeDiscard s, raised := some e, reported := [], executed := stmts }

/-- The diagnostic `DatabaseManager.__exit__` prints when an exception reaches it:
`f"Exception [bold]{exc_type}: {exc_val}[/bold]"` (migration failures raise
`IndexError`). -/
def exitDiagnostic (msg : String) : String := "Exception IndexError: " ++ msg

/-- Observable outcome of `Program.run` up to the interactive session: the migration
exception suppressed by the database context manager (if any), the diagnostics it
printed, and whether control went on to the authentication step and menu loop. -/
structure RunOutcome where
  migRaised : Option String
  diagnostics : List String
  proceeded : Bool
deriving Repr, DecidableEq

/-- Embedding of the startup part of `Program.run`: `with DatabaseManager() as db:
db.migration_upgrade()`.  `DatabaseManager.__exit__` prints the exception and returns
`True`, so any migration failure is suppressed and `run` continues unconditionally
into authentication and the menu loop (`proceeded` is `true` on every path). -/
def programRun (dir : List DirEntry) (st : MigDbState) : RunOutcome × MigDbState :=
  let r := migration_upgrade dir st
  match r.raised with
  | some e =>
    ({ migRaised := some e, diagnostics := [exitDiagnostic e], proceeded := true }, r.state)
  | none =>
    ({ migRaised := none, diagnostics := [], proceeded := true }, r.state)

/-- One row of the `Genre` table.  The `CREATE TABLE Genre` migration script lives in
`src/database/migrations/`, which is not part of the sources; per the spec's data
model a record is `(id, name, listened-seconds)` with a store-assigned unique id and
a unique name. -/
structure GenreRow where
  id : Int
  name : String
  listened_time : Int
deriving Repr, DecidableEq

/-- The `Genre` table, rows in rowid order. -/
abbrev GenreTable := List GenreRow

/-- First row with the given id (`SELECT * FROM Genre WHERE id = ...` semantics of
`get_genre_by_id`), projected to `listened_time`. -/
def listenOf : GenreTable → Int → Option Int
  | [], _ => none
  | r :: rest, gid => if r.id = gid then some r.listened_time else listenOf rest gid

/-- Effect of `UPDATE Genre SET listened_time = listened_time + inc WHERE id = gid`:
every row matching the id is incremented; a missing id matches zero rows. -/
def applyIncrement (t : GenreTable) (gid inc : Int) : GenreTable :=
  t.map fun r => if r.id = gid then { r with listened_time := r.listened_time + inc } else r

/-- Embedding of `DatabaseManager.increment_genre_listen_time`: runs the `UPDATE` and
commits.  SQLite reports success even when the id matches no row, so the operation
never fails under normal operation; the `Except` layer records that no error path is
taken. -/
def increment_genre_listen_time (t : GenreTable) (genre_id increment_by : Int) :
    Except String GenreTable :=
  .ok (applyIncrement t genre_id increment_by)

/-- Next rowid SQLite assigns on insert: one more than the largest existing id. -/
def freshId (t : GenreTable) : Int :=
  (t.map fun r => r.id).foldr max 0 + 1

/-- Modelled from the spec: the `Genre` schema itself (its migration script is not
under `src/`) declares `name` unique and `listened_seconds` initialised to 0.
Embedding of `DatabaseManager.create_new_genre`: `INSERT INTO Genre (name) VALUES
(...)`, raising `sqlite3.IntegrityError` on a duplicate name, committing otherwise. -/
def create_new_genre (t : GenreTable) (name : String) : Except String GenreTable :=
  if t.any fun r => r.name == name then
    .error ("Genre with name " ++ name ++ " already exists.")
  else
    .ok (t ++ [{ id := freshId t, name := name, listened_time := 0 }])

/-- Python `timedelta.seconds` for a timedelta of `micros` microseconds: CPython
normalises to `(days, seconds, microseconds)` with `0 <= seconds < 86400`, flooring
days, so the seconds component is `(micros mod 86400*10^6) div 10^6` with
floor-convention mod (negative timedeltas normalise to a large positive seconds
component). -/
def tdSeconds (micros : Int) : Int :=
  micros.emod 86400000000 / 1000000

/-- A currently-playing sample as the tracker sees it (`api.client.CurrentTrack`,
restricted to the fields `_currently_listening_update_loop` reads).  `progress_ms`
is the Spotify progress in milliseconds; `timedelta(seconds=progress_ms / 1000)`
is exactly `progress_ms * 1000` microseconds. -/
structure CurrentTrack where
  song_id : String
  genres : List String
  progress_ms : Int
deriving Repr, DecidableEq

/-- The loop-carried state of `_currently_listening_update_loop`: `recorded_song`
and `recorded_time` (the latter in microseconds, `none` when still `None`). -/
structure TrackerState where
  recorded_song : Option CurrentTrack
  recorded_time : Option Int
deriving Repr, DecidableEq

/-- Message of the exception the crediting block actually raises: the loop calls
`db.get_genre_by_name(genre)`, but `DatabaseManager` defines no such method (its
lookup is `get_genres_by_name`), so Python raises `AttributeError` on the first
genre. -/
def missingMethodMsg : String :=
  "AttributeError: DatabaseManager object has no attribute get_genre_by_name"

/-- The body of `with DatabaseManager() as db:` in both crediting branches of the
loop: `for genre in current_song.genres:` first evaluates
`db.get_genre_by_name(genre)`, which raises `AttributeError` (see
`missingMethodMsg`); `DatabaseManager.__exit__` returns `True`, suppressing the
exception, so the block leaves the table untouched and execution continues after the
`with`.  With an empty genre list the body runs zero iterations and also changes
nothing.  `_secondsArg` is the amount (`dif_time.seconds` resp.
`current_time.seconds`) the unreachable `_update_genre_listen_time` call would
credit.  Returns the table and the suppressed exception messages. -/
def creditGenresBlock (db : GenreTable) (genres : List String) (_secondsArg : Int) :
    GenreTable × List String :=
  match genres with
  | [] => (db, [])
  | _ :: _ => (db, [missingMethodMsg])

/-- Result of one iteration of the polling loop: either an exception escaped the
loop body (nothing catches an error raised by `self.backend.get_current_track()`,
so the thread running the loop dies), or the loop reaches `time.sleep` with a new
table, new recorded state, and the list of exceptions `DatabaseManager.__exit__`
suppressed during the tick. -/
inductive TickResult where
  | crashed (msg : String)
  | next (db : GenreTable) (st : TrackerState) (suppressed : List String)
deriving Repr, DecidableEq

def tickDbAfter : TickResult → Option GenreTable
  | .crashed _ => none
  | .next db _ _ => some db

def tickStateAfter : TickResult → Option TrackerState
  | .crashed _ => none
  | .next _ st _ => some st

def tickSuppressed : TickResult → Option (List String)
  | .crashed _ => none
  | .next _ _ errs => some errs

/-- One iteration of `Program._currently_listening_update_loop` (lines 263-311 of
`src/cli/__init__.py`).  `intervalMicros` is `timedelta(seconds=check_interval)`,
`sample` the outcome of `self.backend.get_current_track()` (an exception there
propagates and kills the loop), `reqMicros` the measured `request_time`.
Faithful points: `recorded_song` is only assigned when previously falsy, never
re-baselined on a track change; `if not recorded_time` also fires on a zero
timedelta; the same-song branch accepts `dif_time < check_interval + request_time`
with no lower bound; the changed-song branch accepts
`current_time < check_interval + request_time`; `recorded_time = current_time` runs
whenever a sample was returned, in every branch. -/
def loopTick (intervalMicros : Int) (db : GenreTable) (st : TrackerState)
    (sample : Except String (Option CurrentTrack)) (reqMicros : Int) : TickResult :=
  match sample with
  | .error msg => .crashed msg
  | .ok current =>
    match current with
    | none => .next db st []
    | some c =>
      let r : CurrentTrack := st.recorded_song.getD c
      let cMicros : Int := c.progress_ms * 1000
      let recMicros : Int :=
        match st.recorded_time with
        | none => cMicros
        | some t => if t = 0 then cMicros else t
      if c.song_id == r.song_id then
        let difMicros := cMicros - recMicros
        if difMicros < intervalMicros + reqMicros then
          let res := creditGenresBlock db c.genres (tdSeconds difMicros)
          .next res.1 { recorded_song := some r, recorded_time := some cMicros } res.2
        else
          .next db { recorded_song := some r, recorded_time := some cMicros } []
      else
        if cMicros < intervalMicros + reqMicros then
          let res := creditGenresBlock db c.genres (tdSeconds cMicros)
          .next res.1 { recorded_song := some r, recorded_time := some cMicros } res.2
        else
          .next db { recorded_song := some r, recorded_time := some cMicros } []

/-- The repository mutations the tracker's code can issue (lines 287-307):
`Program._create_new_genre(genre)` (whose `IntegrityError` would be suppressed by
`DatabaseManager.__exit__`) and `Program._update_genre_listen_time(genre_id,
td.seconds)`, whose amount is always the `seconds` component of a timedelta. -/
inductive TrackerDbOp where
  | createGenre (name : String)
  | creditSeconds (gid : Int) (micros : Int)
deriving Repr, DecidableEq

/-- Effect of one tracker-issued repository call on the committed table. -/
def applyTrackerOp (t : GenreTable) : TrackerDbOp → GenreTable
  | .createGenre name =>
    match create_new_genre t name with
    | .ok t2 => t2
    | .error _ => t
  | .creditSeconds gid micros => applyIncrement t gid (tdSeconds micros)

/-- Effect of a sequence of tracker-issued repository calls. -/
def applyTrackerOps (t : GenreTable) (ops : List TrackerDbOp) : GenreTable :=
  ops.foldl applyTrackerOp t

/-- Digit character of a value below ten. -/
def digitChar (m : Nat) : Char := Char.ofNat (48 + m)

/-- The zero-padded 3-digit rendering of a sequence number (`f"{n:03}"`, `n ≤ 999`). -/
def pad3 (n : Nat) : List Char :=
  [digitChar (n / 100), digitChar (n / 10 % 10), digitChar (n % 10)]

def upSuffix : List Char := ['_', 'u', 'p', '.', 's', 'q', 'l']

def downSuffix : List Char := ['_', 'd', 'o', 'w', 'n', '.', 's', 'q', 'l']

/-- The file name `NNN_up.sql` of upgrade script `n`. -/
def upName (n : Nat) : List Char := pad3 n ++ upSuffix

/-- The file name `NNN_down.sql` of downgrade script `n`. -/
def downName (n : Nat) : List Char := pad3 n ++ downSuffix

/-- A contiguous run of upgrade scripts: `contigFrom cont a c` lists the entries
`a, a+1, ..., a+c-1` in ascending order, script `i` holding the lines `cont i`. -/
def contigFrom (cont : Nat → List String) (a : Nat) : Nat → List DirEntry
  | 0 => []
  | c + 1 => { name := upName a, lines := cont a } :: contigFrom cont (a + 1) c

/-- The upgrade loop's alignment invariant: the file at enumerate position `idx`
has sequence number `idx + 1`. -/
def alignedFrom : List DirEntry → Nat → Prop
  | [], _ => True
  | f :: rest, idx => fileIndexOf f.name = (idx : Int) + 1 ∧ alignedFrom rest (idx + 1)

/-- The spec's precondition on `rollback(target)`, in its own words: exactly
`current_version − target_version` contiguous downgrade scripts exist, i.e. the
descending-sorted downgrade files are numbered `current_version, current_version−1,
..., target_version+1`. -/
def descIndexes (v : Int) : Nat → List Int
  | 0 => []
  | n + 1 => v :: descIndexes (v - 1) n

/-- Whether the downgrade scripts in `dir` are exactly the contiguous run the spec's
rollback precondition demands for current version `v` and target `target`. -/
def rollbackContiguous (dir : List DirEntry) (v target : Int) : Bool :=
  ((sortDescByName (dir.filter fun f => matchesDownL f.name)).map
    fun f => fileIndexOf f.name) == descIndexes v (v - target).toNat

lemma digitChar_isDigit (m : Nat) (h : m < 10) : (digitChar m).isDigit = true := by
  interval_cases m <;> decide

lemma digitChar_toNat (m : Nat) (h : m < 10) : (digitChar m).toNat = 48 + m := by
  interval_cases m <;> decide

lemma matchesUpL_upName (n : Nat) (h : n ≤ 999) : matchesUpL (upName n) = true := by
  have h2 : n / 100 < 10 := by omega
  have h1 : n / 10 % 10 < 10 := Nat.mod_lt _ (by norm_num)
  have h0 : n % 10 < 10 := Nat.mod_lt _ (by norm_num)
  simp [upName, pad3, upSuffix, matchesUpL, digitChar_isDigit _ h2, digitChar_isDigit _ h1,
    digitChar_isDigit _ h0]

lemma matchesDownL_downName (n : Nat) (h : n ≤ 999) : matchesDownL (downName n) = true := by
  have h2 : n / 100 < 10 := by omega
  have h1 : n / 10 % 10 < 10 := Nat.mod_lt _ (by norm_num)
  have h0 : n % 10 < 10 := Nat.mod_lt _ (by norm_num)
  simp [downName, pad3, downSuffix, matchesDownL, digitChar_isDigit _ h2,
    digitChar_isDigit _ h1, digitChar_isDigit _ h0]

lemma fileIndexOf_upName (n : Nat) (h : n ≤ 999) : fileIndexOf (upName n) = (n : Int) := by
  have h2 : n / 100 < 10 := by omega
  have h1 : n / 10 % 10 < 10 := Nat.mod_lt _ (by norm_num)
  have h0 : n % 10 < 10 := Nat.mod_lt _ (by norm_num)
  simp [upName, pad3, upSuffix, fileIndexOf, find3, digitChar_isDigit _ h2,
    digitChar_isDigit _ h1, digitChar_isDigit _ h0, digitChar_toNat _ h2,
    digitChar_toNat _ h1, digitChar_toNat _ h0]
  omega

lemma contigFrom_length (cont : Nat → List String) :
    ∀ (c a : Nat), (contigFrom cont a c).length = c := by
  intro c
  induction c with
  | zero => intro a; rfl
  | succ c ih => intro a; simp [contigFrom, ih (a + 1)]

lemma aligned_contigFrom (cont : Nat → List String) :
    ∀ (c idx : Nat), idx + c ≤ 999 → alignedFrom (contigFrom cont (idx + 1) c) idx := by
  intro c
  induction c with
  | zero => intro idx _; trivial
  | succ c ih =>
    intro idx hle
    refine ⟨?_, ?_⟩
    · rw [fileIndexOf_upName (idx + 1) (by omega)]
      omega
    · exact ih (idx + 1) (by omega)

lemma filter_contigFrom (cont : Nat → List String) :
    ∀ (c a : Nat), a + c ≤ 1000 →
      (contigFrom cont a c).filter (fun f => matchesUpL f.name) = contigFrom cont a c := by
  intro c
  induction c with
  | zero => intro a _; rfl
  | succ c ih =>
    intro a hle
    simp only [contigFrom, List.filter_cons]
    rw [matchesUpL_upName a (by omega)]
    simp [ih (a + 1) (by omega)]

lemma execSetVersion_pendingVersion (s : MigSession) (n : Int) :
    (execSetVersion s n).pendingVersion = n := by
  simp only [execSetVersion]
  split <;> rfl

lemma upgradeGo_append_ok (l₂ : List DirEntry) :
    ∀ (l₁ : List DirEntry) (idx : Nat) (mv mv2 : Int) (acc acc2 : List String)
      (s s2 : MigSession),
      upgradeGo l₁ idx mv acc s = (none, mv2, acc2, s2) →
      upgradeGo (l₁ ++ l₂) idx mv acc s = upgradeGo l₂ (idx + l₁.length) mv2 acc2 s2 := by
  intro l₁
  induction l₁ with
  | nil =>
    intro idx mv mv2 acc acc2 s s2 h
    simp only [upgradeGo, Prod.mk.injEq, true_and] at h
    obtain ⟨h2, h3, h4⟩ := h
    subst h2
    subst h3
    subst h4
    simp
  | cons f rest ih =>
    intro idx mv mv2 acc acc2 s s2 h
    simp only [upgradeGo, List.cons_append, List.append_eq] at h ⊢
    by_cases h1 : fileIndexOf f.name ≤ mv
    · simp only [h1, if_true] at h ⊢
      have heq := ih (idx + 1) mv mv2 acc acc2 s s2 h
      simp only [List.append_eq] at heq
      rw [heq]
      congr 1
      simp
      omega
    · simp only [h1, if_false] at h ⊢
      by_cases h2 : fileIndexOf f.name = (idx : Int) + 1
      · simp only [h2, if_true] at h ⊢
        have heq := ih (idx + 1) (mv + 1) mv2 (acc ++ parseStatements f.lines) acc2
          (execSetVersion (execStmts s (parseStatements f.lines)) (mv + 1)) s2 h
        simp only [List.append_eq] at heq
        rw [heq]
        congr 1
        simp
        omega
      · simp only [h2, if_false] at h
        exact absurd (congrArg Prod.fst h) (by simp)

lemma upgradeGo_aligned :
    ∀ (l : List DirEntry) (idx : Nat) (mv : Int) (acc : List String) (s : MigSession),
      alignedFrom l idx → (idx : Int) ≤ mv → s.pendingVersion = mv →
      ∃ acc2 s2,
        upgradeGo l idx mv acc s = (none, max mv ((idx + l.length : Nat) : Int), acc2, s2)
          ∧ s2.pendingVersion = max mv ((idx + l.length : Nat) : Int) := by
  intro l
  induction l with
  | nil =>
    intro idx mv acc s _ hmv hs
    refine ⟨acc, s, ?_, ?_⟩
    · simp only [upgradeGo, List.length_nil, Nat.add_zero]
      rw [max_eq_left hmv]
    · simp only [List.length_nil, Nat.add_zero]
      rw [max_eq_left hmv]
      exact hs
  | cons f rest ih =>
    intro idx mv acc s halign hmv hs
    obtain ⟨hfi, hrest⟩ := halign
    by_cases hle : (idx : Int) + 1 ≤ mv
    · obtain ⟨acc2, s2, heq, hs2⟩ := ih (idx + 1) mv acc s hrest (by push_cast; omega) hs
      have hc : ((idx + 1 + rest.length : Nat) : Int) = ((idx + (rest.length + 1) : Nat) : Int) := by
        push_cast; ring
      refine ⟨acc2, s2, ?_, ?_⟩
      · simp only [upgradeGo, hfi, hle, if_true]
        rw [heq, hc]
        simp
      · simp only [List.length_cons]
        rw [← hc]
        exact hs2
    · obtain ⟨acc2, s2, heq, hs2⟩ := ih (idx + 1) (mv + 1) (acc ++ parseStatements f.lines)
        (execSetVersion (execStmts s (parseStatements f.lines)) (mv + 1)) hrest
        (by push_cast; omega) (execSetVersion_pendingVersion _ _)
      have hmx : max (mv + 1) ((idx + 1 + rest.length : Nat) : Int)
          = max mv ((idx + (rest.length + 1) : Nat) : Int) := by
        push_cast
        omega
      refine ⟨acc2, s2, ?_, ?_⟩
      · simp only [upgradeGo, hfi, hle, if_false, if_true]
        rw [heq, hmx]
        simp
      · simp only [List.length_cons]
        rw [← hmx]
        exact hs2

lemma upgradeGo_skip_all (l₂ : List DirEntry) :
    ∀ (l : List DirEntry) (idx : Nat) (mv : Int) (acc : List String) (s : MigSession),
      alignedFrom l idx → ((idx + l.length : Nat) : Int) ≤ mv →
      upgradeGo (l ++ l₂) idx mv acc s = upgradeGo l₂ (idx + l.length) mv acc s := by
  intro l
  induction l with
  | nil =>
    intro idx mv acc s _ _
    simp
  | cons f rest ih =>
    intro idx mv acc s halign hmv
    obtain ⟨hfi, hrest⟩ := halign
    have hle : fileIndexOf f.name ≤ mv := by
      rw [hfi]
      simp only [List.length_cons] at hmv
      push_cast at hmv ⊢
      omega
    simp only [List.cons_append, upgradeGo, hle, if_true, List.append_eq]
    have heq := ih (idx + 1) mv acc s hrest
      (by simp only [List.length_cons] at hmv; push_cast at hmv ⊢; omega)
    simp only [List.append_eq] at heq
    rw [heq]
    congr 1
    simp
    omega

lemma insertDesc_length (f : DirEntry) : ∀ l, (insertDesc f l).length = l.length + 1 := by
  intro l
  induction l with
  | nil => rfl
  | cons g rest ih =>
    simp only [insertDesc]
    split
    · simp
    · simp [ih]

lemma sortDescByName_length (files : List DirEntry) :
    (sortDescByName files).length = files.length := by
  induction files with
  | nil => rfl
  | cons f rest ih =>
    simp only [sortDescByName, List.foldr] at ih ⊢
    rw [insertDesc_length, ih]
    simp

/-- Counterexample to C5 as stated: upgrade scripts `001` (a `CREATE TABLE` — DDL,
which autocommits) and `003`, current version 0 — a gap above the current version.
`upgrade()` applies `001`, autocommitting its statement and the
`PRAGMA user_version = 1` bump (no transaction is open for either), then raises on
the gap; the close without commit cannot undo autocommitted work, so SchemaVersion
ends at 1, not its pre-call value 0. -/
theorem C5_counterexample :
    (migration_upgrade
        [{ name := upName 1, lines := ["CREATE TABLE Genre (id INTEGER PRIMARY KEY);"] },
          { name := upName 3, lines := ["ALTER TABLE Genre ADD c INTEGER;"] }]
        { version := 0, store := [] }).raised = some (upgradeErrMsg 2) ∧
    (migration_upgrade
        [{ name := upName 1, lines := ["CREATE TABLE Genre (id INTEGER PRIMARY KEY);"] },
          { name := upName 3, lines := ["ALTER TABLE Genre ADD c INTEGER;"] }]
        { version := 0, store := [] }).state.version = 1 ∧
    (1 : Int) ≠ 0 := by
  decide

/-- C5 (amended).  For every migration directory whose upgrade scripts are `001 ..
00k` followed (in listing order) by a script numbered at least `k + 2` — a gap above
the current version `v ≤ k` — `upgrade()` raises the `IndexError` naming the missing
sequence number `k + 1`.  When the gap is immediately above the current version
(`v = k`, the spec's 001/003-at-version-1 example) every script below the gap is
skipped, nothing is executed, and SchemaVersion and the store remain at their values
from before the call; when scripts apply before the gap is reached, their
autocommitted effects (version bumps included) can persist despite the failure. -/
theorem C5_gap_error_and_boundary (k : Nat) (h999 : k ≤ 999) (g : Nat)
    (hg2 : k + 2 ≤ g) (hg9 : g ≤ 999) (cont : Nat → List String)
    (gcontent : List String) (junk : List DirEntry) (st : MigDbState)
    (hv0 : 0 ≤ st.version) (hvk : st.version ≤ (k : Int)) :
    (migration_upgrade
        (contigFrom cont 1 k ++ { name := upName g, lines := gcontent } :: junk)
        st).raised = some (upgradeErrMsg ((k : Int) + 1)) ∧
    (st.version = (k : Int) →
      (migration_upgrade
          (contigFrom cont 1 k ++ { name := upName g, lines := gcontent } :: junk)
          st).state = st ∧
      (migration_upgrade
          (contigFrom cont 1 k ++ { name := upName g, lines := gcontent } :: junk)
          st).executed = []) := by
  have hfilter :
      (contigFrom cont 1 k ++ { name := upName g, lines := gcontent } :: junk).filter
          (fun f => matchesUpL f.name)
        = contigFrom cont 1 k
            ++ { name := upName g, lines := gcontent }
              :: junk.filter (fun f => matchesUpL f.name) := by
    rw [List.filter_append, filter_contigFrom cont k 1 (by omega), List.filter_cons]
    simp [matchesUpL_upName g hg9]
  have hlen : (contigFrom cont 1 k).length = k := contigFrom_length cont k 1
  have halign : alignedFrom (contigFrom cont 1 k) 0 := aligned_contigFrom cont k 0 (by omega)
  have hnotdone :
      ¬ (st.version ≥
        (((contigFrom cont 1 k ++ { name := upName g, lines := gcontent } :: junk).filter
          (fun f => matchesUpL f.name)).length : Int)) := by
    rw [hfilter]
    simp only [List.length_append, List.length_cons, hlen]
    push_cast
    omega
  constructor
  · obtain ⟨acc2, s2, hgo, hs2⟩ := upgradeGo_aligned (contigFrom cont 1 k) 0 st.version []
      (sessionStart st) halign (by exact_mod_cast hv0) (by simp [sessionStart])
    have hmax : max st.version ((0 + (contigFrom cont 1 k).length : Nat) : Int) = (k : Int) := by
      rw [hlen]
      push_cast
      omega
    rw [hmax] at hgo
    have happ := upgradeGo_append_ok
      ({ name := upName g, lines := gcontent } :: junk.filter (fun f => matchesUpL f.name))
      (contigFrom cont 1 k) 0 st.version (k : Int) [] acc2 (sessionStart st) s2 hgo
    have hstep :
        upgradeGo
            ({ name := upName g, lines := gcontent }
              :: junk.filter (fun f => matchesUpL f.name))
            (0 + (contigFrom cont 1 k).length) (k : Int) acc2 s2
          = (some (upgradeErrMsg ((k : Int) + 1)), (k : Int), acc2, s2) := by
      simp only [upgradeGo, hlen, Nat.zero_add, fileIndexOf_upName g hg9]
      rw [if_neg (by omega), if_neg (by omega)]
    rw [hstep] at happ
    simp only [migration_upgrade, hfilter] at hnotdone ⊢
    rw [if_neg hnotdone, happ]
  · intro hveq
    have hskip := upgradeGo_skip_all
      ({ name := upName g, lines := gcontent } :: junk.filter (fun f => matchesUpL f.name))
      (contigFrom cont 1 k) 0 st.version [] (sessionStart st) halign
      (by rw [hlen]; push_cast; omega)
    have hstep :
        upgradeGo
            ({ name := upName g, lines := gcontent }
              :: junk.filter (fun f => matchesUpL f.name))
            (0 + (contigFrom cont 1 k).length) st.version [] (sessionStart st)
          = (some (upgradeErrMsg ((k : Int) + 1)), st.version, [], sessionStart st) := by
      simp only [upgradeGo, hlen, Nat.zero_add, fileIndexOf_upName g hg9]
      rw [if_neg (by omega), if_neg (by omega)]
    rw [hstep] at hskip
    simp only [migration_upgrade, hfilter] at hnotdone ⊢
    rw [if_neg hnotdone, hskip]
    exact ⟨rfl, rfl⟩

/-- Witness for C5's amended theorem: the spec's own example — scripts `001` and
`003` present, `002` missing, current version 1 — fails naming sequence number 2,
executes nothing, and leaves the store at version 1. -/
theorem C5_witness :
    (migration_upgrade
        (contigFrom (fun _ => ["CREATE TABLE Genre (id INTEGER PRIMARY KEY);"]) 1 1
          ++ { name := upName 3, lines := ["ALTER TABLE Genre ADD c INTEGER;"] } :: [])
        { version := 1, store := [] }).raised = some (upgradeErrMsg 2) ∧
    (migration_upgrade
        (contigFrom (fun _ => ["CREATE TABLE Genre (id INTEGER PRIMARY KEY);"]) 1 1
          ++ { name := upName 3, lines := ["ALTER TABLE Genre ADD c INTEGER;"] } :: [])
        { version := 1, store := [] }).state = { version := 1, store := [] } ∧
    (migration_upgrade
        (contigFrom (fun _ => ["CREATE TABLE Genre (id INTEGER PRIMARY KEY);"]) 1 1
          ++ { name := upName 3, lines := ["ALTER TABLE Genre ADD c INTEGER;"] } :: [])
        { version := 1, store := [] }).executed = [] := by
  have h := C5_gap_error_and_boundary 1 (by norm_num) 3 (by norm_num) (by norm_num)
    (fun _ => ["CREATE TABLE Genre (id INTEGER PRIMARY KEY);"])
    ["ALTER TABLE Genre ADD c INTEGER;"] [] { version := 1, store := [] }
    (by norm_num) (by norm_num)
  obtain ⟨h1, h2⟩ := h
  obtain ⟨h3, h4⟩ := h2 (by norm_num)
  refine ⟨?_, h3, h4⟩
  simpa using h1

/-- C8.  For every contiguous run of upgrade scripts `001 .. N` (listed in ascending
order), `upgrade()` from version 0 succeeds with final schema version `N`, and
immediately re-invoking it executes no SQL statement, changes nothing, and reports
that the database is up to date. -/
theorem C8_contiguous_upgrade_idempotent (N : Nat) (hN : 1 ≤ N) (h999 : N ≤ 999)
    (cont : Nat → List String) (store : List String) :
    (migration_upgrade (contigFrom cont 1 N) { version := 0, store := store }).raised = none ∧
    (migration_upgrade (contigFrom cont 1 N) { version := 0, store := store }).state.version
      = (N : Int) ∧
    (migration_upgrade (contigFrom cont 1 N)
      (migration_upgrade (contigFrom cont 1 N) { version := 0, store := store }).state).executed
      = [] ∧
    (migration_upgrade (contigFrom cont 1 N)
      (migration_upgrade (contigFrom cont 1 N) { version := 0, store := store }).state).state
      = (migration_upgrade (contigFrom cont 1 N) { version := 0, store := store }).state ∧
    (migration_upgrade (contigFrom cont 1 N)
      (migration_upgrade (contigFrom cont 1 N) { version := 0, store := store }).state).reported
      = [noPendingMsg] := by
  have hfilter := filter_contigFrom cont N 1 (by omega)
  have hlen := contigFrom_length cont N 1
  have halign := aligned_contigFrom cont N 0 (by omega)
  obtain ⟨acc2, s2, hgo, hs2⟩ :=
    upgradeGo_aligned (contigFrom cont 1 N) 0 ((0 : Int)) []
      (sessionStart { version := 0, store := store }) halign (by simp) (by simp [sessionStart])
  have hmax : max (0 : Int) ((0 + (contigFrom cont 1 N).length : Nat) : Int) = (N : Int) := by
    rw [hlen]
    push_cast
    omega
  rw [hmax] at hgo hs2
  have hfirst : migration_upgrade (contigFrom cont 1 N) { version := 0, store := store }
      = { state := commitAll s2, raised := none,
          reported := [allAppliedMsg], executed := acc2 } := by
    simp only [migration_upgrade, hfilter, hlen]
    rw [if_neg (by omega), hgo]
  have hsecond :
      migration_upgrade (contigFrom cont 1 N) (commitAll s2)
      = { state := commitAll s2, raised := none,
          reported := [noPendingMsg], executed := [] } := by
    simp only [migration_upgrade, hfilter, hlen]
    rw [if_pos (by simp [commitAll, hs2])]
  rw [hfirst]
  refine ⟨rfl, ?_, ?_, ?_, ?_⟩
  · simp [commitAll, hs2]
  · simp [hsecond]
  · simp [hsecond]
  · simp [hsecond]

/-- Witness for C8: two scripts `001`, `002` from version 0 end at version 2; the
repeated call is a no-op reporting "No pending migrations!". -/
theorem C8_witness :
    (migration_upgrade (contigFrom (fun _ => ["SELECT 1;"]) 1 2)
      { version := 0, store := [] }).raised = none ∧
    (migration_upgrade (contigFrom (fun _ => ["SELECT 1;"]) 1 2)
      { version := 0, store := [] }).state.version = 2 ∧
    (migration_upgrade (contigFrom (fun _ => ["SELECT 1;"]) 1 2)
      (migration_upgrade (contigFrom (fun _ => ["SELECT 1;"]) 1 2)
        { version := 0, store := [] }).state).executed = [] ∧
    (migration_upgrade (contigFrom (fun _ => ["SELECT 1;"]) 1 2)
      (migration_upgrade (contigFrom (fun _ => ["SELECT 1;"]) 1 2)
        { version := 0, store := [] }).state).state
      = (migration_upgrade (contigFrom (fun _ => ["SELECT 1;"]) 1 2)
        { version := 0, store := [] }).state ∧
    (migration_upgrade (contigFrom (fun _ => ["SELECT 1;"]) 1 2)
      (migration_upgrade (contigFrom (fun _ => ["SELECT 1;"]) 1 2)
        { version := 0, store := [] }).state).reported = [noPendingMsg] := by
  simpa using C8_contiguous_upgrade_idempotent 2 (by norm_num) (by norm_num)
    (fun _ => ["SELECT 1;"]) []

/-- C6 (amended).  When the rollback target is not strictly below the current version,
or the number of downgrade files differs from `current_version - target_version`,
`rollback` reports an error, raises nothing, executes no script and leaves the
committed store (version included) unchanged.  (When the count matches but the
scripts are not contiguous, the failure instead occurs mid-loop and autocommitted
work — script DDL and version decrements — persists: see `C6_counterexample`.) -/
theorem C6_preflight_guard (dir : List DirEntry) (st : MigDbState) (target : Int)
    (h : st.version ≤ target ∨
      st.version - target ≠ ((dir.filter fun f => matchesDownL f.name).length : Int)) :
    (migration_rollback dir st target).executed = [] ∧
    (migration_rollback dir st target).state = st ∧
    (migration_rollback dir st target).raised = none ∧
    (migration_rollback dir st target).reported ≠ [] := by
  by_cases h1 : st.version = target
  · simp [migration_rollback, h1]
  · by_cases h2 : st.version < target
    · simp [migration_rollback, if_neg h1, h2]
    · have hcnt : st.version - target
          ≠ ((dir.filter fun f => matchesDownL f.name).length : Int) := by
        rcases h with h | h
        · omega
        · exact h
      have hsl : (sortDescByName (dir.filter fun f => matchesDownL f.name)).length
          = (dir.filter fun f => matchesDownL f.name).length := sortDescByName_length _
      simp only [migration_rollback, if_neg h1, if_neg h2]
      rw [if_pos (by rw [hsl]; exact hcnt)]
      exact ⟨rfl, rfl, rfl, by simp⟩

/-- Witness for C6's amended theorem: rolling back to the current version itself
reports an error and changes nothing. -/
theorem C6_witness :
    (migration_rollback [] { version := 3, store := [] } 3).executed = [] ∧
    (migration_rollback [] { version := 3, store := [] } 3).state
      = { version := 3, store := [] } ∧
    (migration_rollback [] { version := 3, store := [] } 3).raised = none ∧
    (migration_rollback [] { version := 3, store := [] } 3).reported ≠ [] :=
  C6_preflight_guard [] { version := 3, store := [] } 3 (Or.inl (by norm_num))

/-- Counterexample to C6 as stated: current version 2, target 0, downgrade files
`002_down.sql` and `000_down.sql` — the file count matches `current − target`, the
scripts are not contiguous (`001` is missing), yet the loop applies `002_down.sql`'s
statement before raising.  Both the `DROP TABLE Genre` (DDL) and the
`PRAGMA user_version = 1` decrement autocommit, so the failure is *not* reported
before applying any script and the committed store is durably changed (version 1,
table dropped) rather than left unchanged. -/
theorem C6_counterexample :
    rollbackContiguous
        [{ name := downName 2, lines := ["DROP TABLE Genre;"] },
          { name := downName 0, lines := ["SELECT 1;"] }] 2 0 = false ∧
    ((([{ name := downName 2, lines := ["DROP TABLE Genre;"] },
          { name := downName 0, lines := ["SELECT 1;"] }] : List DirEntry).filter
        fun f => matchesDownL f.name).length : Int) = 2 - 0 ∧
    (migration_rollback
        [{ name := downName 2, lines := ["DROP TABLE Genre;"] },
          { name := downName 0, lines := ["SELECT 1;"] }]
        { version := 2, store := [] } 0).executed = ["DROP TABLE Genre; "] ∧
    (migration_rollback
        [{ name := downName 2, lines := ["DROP TABLE Genre;"] },
          { name := downName 0, lines := ["SELECT 1;"] }]
        { version := 2, store := [] } 0).raised = some (rollbackErrMsg 1) ∧
    (migration_rollback
        [{ name := downName 2, lines := ["DROP TABLE Genre;"] },
          { name := downName 0, lines := ["SELECT 1;"] }]
        { version := 2, store := [] } 0).state
      = { version := 1, store := ["DROP TABLE Genre; "] } := by
  decide

/-- Counterexample to C3 as stated: with upgrade scripts `001` and `003` and version
1, the migration raises, `DatabaseManager.__exit__` suppresses the exception, and
`Program.run` still proceeds to the interactive session. -/
theorem C3_counterexample :
    (programRun
        (contigFrom (fun _ => ["SELECT 1;"]) 1 1
          ++ [{ name := upName 3, lines := ["SELECT 2;"] }])
        { version := 1, store := [] }).1.migRaised = some (upgradeErrMsg 2) ∧
    (programRun
        (contigFrom (fun _ => ["SELECT 1;"]) 1 1
          ++ [{ name := upName 3, lines := ["SELECT 2;"] }])
        { version := 1, store := [] }).1.proceeded = true := by
  decide

/-- C3 (amended).  Every migration failure during startup produces an explicit
diagnostic (printed by `DatabaseManager.__exit__`), but the failure is suppressed and
the application proceeds to the interactive session anyway. -/
theorem C3_migration_failure_reported_but_proceeds (dir : List DirEntry)
    (st : MigDbState) (h : (programRun dir st).1.migRaised.isSome = true) :
    (programRun dir st).1.diagnostics ≠ [] ∧ (programRun dir st).1.proceeded = true := by
  simp only [programRun] at h ⊢
  cases hr : (migration_upgrade dir st).raised with
  | none => rw [hr] at h; simp at h
  | some e => simp

/-- Witness for C3's amended theorem at the concrete gapped directory. -/
theorem C3_witness :
    (programRun
        (contigFrom (fun _ => ["SELECT 1;"]) 1 1
          ++ [{ name := upName 3, lines := ["SELECT 2;"] }])
        { version := 1, store := [] }).1.diagnostics ≠ [] ∧
    (programRun
        (contigFrom (fun _ => ["SELECT 1;"]) 1 1
          ++ [{ name := upName 3, lines := ["SELECT 2;"] }])
        { version := 1, store := [] }).1.proceeded = true :=
  C3_migration_failure_reported_but_proceeds _ _ (by decide)

lemma listenOf_append_of_some (t l : GenreTable) (gid v : Int)
    (h : listenOf t gid = some v) : listenOf (t ++ l) gid = some v := by
  induction t with
  | nil => simp [listenOf] at h
  | cons r rest ih =>
    by_cases hid : r.id = gid
    · simp only [listenOf, List.cons_append, if_pos hid] at h ⊢
      exact h
    · simp only [listenOf, List.cons_append, if_neg hid] at h ⊢
      exact ih h

lemma listenOf_applyIncrement_self (t : GenreTable) (gid inc v : Int)
    (h : listenOf t gid = some v) :
    listenOf (applyIncrement t gid inc) gid = some (v + inc) := by
  induction t with
  | nil => simp [listenOf] at h
  | cons r rest ih =>
    by_cases hid : r.id = gid
    · simp only [listenOf, if_pos hid, Option.some.injEq] at h
      subst h
      simp [applyIncrement, listenOf, hid]
    · simp only [listenOf, if_neg hid] at h
      simp only [applyIncrement, List.map_cons, if_neg hid, listenOf]
      exact ih h

lemma listenOf_applyIncrement_other (t : GenreTable) (gid gid2 inc v : Int)
    (h : listenOf t gid = some v) (hne : gid ≠ gid2) :
    listenOf (applyIncrement t gid2 inc) gid = some v := by
  induction t with
  | nil => simp [listenOf] at h
  | cons r rest ih =>
    by_cases hid : r.id = gid
    · have hid2 : ¬ r.id = gid2 := by rw [hid]; exact hne
      simp only [listenOf, if_pos hid] at h
      simp only [applyIncrement, List.map_cons, if_neg hid2, listenOf, if_pos hid]
      exact h
    · simp only [listenOf, if_neg hid] at h
      by_cases hid2 : r.id = gid2
      · simp only [applyIncrement, List.map_cons, if_pos hid2, listenOf]
        rw [if_neg hid]
        exact ih h
      · simp only [applyIncrement, List.map_cons, if_neg hid2, listenOf]
        rw [if_neg hid]
        exact ih h

lemma tdSeconds_nonneg (micros : Int) : 0 ≤ tdSeconds micros := by
  have h1 : (0 : Int) ≤ micros.emod 86400000000 := Int.emod_nonneg _ (by norm_num)
  exact Int.ediv_nonneg h1 (by norm_num)

lemma listenOf_applyTrackerOp (op : TrackerDbOp) (t : GenreTable) (gid v : Int)
    (h : listenOf t gid = some v) :
    ∃ w, listenOf (applyTrackerOp t op) gid = some w ∧ v ≤ w := by
  cases op with
  | createGenre name =>
    by_cases hex : (t.any fun r => r.name == name) = true
    · refine ⟨v, ?_, le_refl v⟩
      simp [applyTrackerOp, create_new_genre, hex, h]
    · refine ⟨v, ?_, le_refl v⟩
      have hcreate : create_new_genre t name
          = Except.ok (t ++ [{ id := freshId t, name := name, listened_time := 0 }]) := by
        simp only [create_new_genre]
        rw [if_neg hex]
      simp only [applyTrackerOp, hcreate]
      exact listenOf_append_of_some _ _ _ _ h
  | creditSeconds gid2 micros =>
    by_cases hg : gid2 = gid
    · subst hg
      refine ⟨v + tdSeconds micros, ?_, ?_⟩
      · exact listenOf_applyIncrement_self t gid2 (tdSeconds micros) v h
      · have := tdSeconds_nonneg micros
        omega
    · exact ⟨v, listenOf_applyIncrement_other t gid gid2 (tdSeconds micros) v h
        (fun he => hg he.symm), le_refl v⟩

/-- C10.  Once a genre record exists, its `listened_time` is monotonically
non-decreasing under every sequence of repository calls the tracker can issue:
creations never touch existing rows, and every credit the tracker passes is a
`timedelta.seconds` value, which is non-negative by normalisation. -/
theorem C10_listened_time_monotonic (ops : List TrackerDbOp) (t : GenreTable)
    (gid v : Int) (h : listenOf t gid = some v) :
    ∃ w, listenOf (applyTrackerOps t ops) gid = some w ∧ v ≤ w := by
  induction ops generalizing t v with
  | nil => exact ⟨v, h, le_refl v⟩
  | cons op rest ih =>
    obtain ⟨w1, hw1, hle1⟩ := listenOf_applyTrackerOp op t gid v h
    obtain ⟨w2, hw2, hle2⟩ := ih (applyTrackerOp t op) w1 hw1
    exact ⟨w2, by simpa [applyTrackerOps] using hw2, le_trans hle1 hle2⟩

/-- Witness for C10: a credit computed from a *negative* 5-second timedelta (the
normalised seconds component is 86395) and a duplicate create still leave the
record's counter at least its old value. -/
theorem C10_witness :
    ∃ w, listenOf
        (applyTrackerOps [{ id := 1, name := "rock", listened_time := 5 }]
          [TrackerDbOp.creditSeconds 1 (-5000000), TrackerDbOp.createGenre "rock"]) 1
      = some w ∧ (5 : Int) ≤ w :=
  C10_listened_time_monotonic
    [TrackerDbOp.creditSeconds 1 (-5000000), TrackerDbOp.createGenre "rock"]
    [{ id := 1, name := "rock", listened_time := 5 }] 1 5 (by decide)

lemma applyIncrement_not_mem (gid s : Int) :
    ∀ t : GenreTable, (∀ r ∈ t, r.id ≠ gid) → applyIncrement t gid s = t := by
  intro t
  induction t with
  | nil => intro _; rfl
  | cons r rest ih =>
    intro h
    simp only [applyIncrement, List.map_cons]
    rw [if_neg (h r (by simp))]
    have h2 := ih fun r2 hr2 => h r2 (by simp [hr2])
    simp only [applyIncrement] at h2
    rw [h2]

/-- Counterexample to C7 as stated: incrementing an id absent from the table (here
id 1 in the empty table, by 5 seconds) does not fail with a NotFound error — the
`UPDATE` matches zero rows and the call succeeds. -/
theorem C7_counterexample :
    increment_genre_listen_time ([] : GenreTable) 1 5 = Except.ok [] ∧
    ¬ ∃ e, increment_genre_listen_time ([] : GenreTable) 1 5 = Except.error e := by
  constructor
  · rfl
  · rintro ⟨e, he⟩
    simp [increment_genre_listen_time] at he

/-- C7 (amended).  `increment(id, seconds)` always succeeds: when the id matches no
row it is a no-op returning the table unchanged; when the id exists it adds
`seconds` to that row's `listened_time` (for `seconds = 0` this is a no-op by
arithmetic). -/
theorem C7_increment_amended (t : GenreTable) (gid s : Int) :
    ((∀ r ∈ t, r.id ≠ gid) → increment_genre_listen_time t gid s = Except.ok t) ∧
    (∀ v, listenOf t gid = some v →
      ∃ t2, increment_genre_listen_time t gid s = Except.ok t2 ∧
        listenOf t2 gid = some (v + s)) := by
  constructor
  · intro hnone
    simp only [increment_genre_listen_time, Except.ok.injEq]
    exact applyIncrement_not_mem gid s t hnone
  · intro v hv
    exact ⟨applyIncrement t gid s, rfl, listenOf_applyIncrement_self t gid s v hv⟩

/-- Witness for C7's amended theorem: incrementing an existing record by 4 yields
`3 + 4`. -/
theorem C7_witness :
    ∃ t2, increment_genre_listen_time [{ id := 1, name := "rock", listened_time := 3 }] 1 4
        = Except.ok t2 ∧ listenOf t2 1 = some (3 + 4) :=
  (C7_increment_amended [{ id := 1, name := "rock", listened_time := 3 }] 1 4).2 3 (by decide)

lemma creditGenresBlock_fst (db : GenreTable) (gs : List String) (a : Int) :
    (creditGenresBlock db gs a).1 = db := by
  cases gs <;> rfl

lemma tickDbAfter_ok (intervalMicros : Int) (db : GenreTable) (st : TrackerState)
    (s : Option CurrentTrack) (req : Int) :
    tickDbAfter (loopTick intervalMicros db st (.ok s) req) = some db := by
  cases s with
  | none => rfl
  | some c =>
    simp only [loopTick]
    split_ifs <;> simp [tickDbAfter, creditGenresBlock_fst]

/-- C1.  On a tick whose sample carries the same `track_id` as the recorded one, if
the computed delta (current elapsed minus recorded elapsed) lies outside
`[0, interval + request_latency + tolerance)` for any non-negative tolerance — in
particular any negative delta or any forward jump of at least the bound — the genre
table is unchanged by the tick: zero seconds are credited. -/
theorem C1_out_of_bounds_delta_credits_zero (intervalMicros reqMicros tolMicros : Int)
    (db : GenreTable) (st : TrackerState) (c r : CurrentTrack) (t : Int)
    (_hrec : st.recorded_song = some r) (_hid : c.song_id = r.song_id)
    (_htime : st.recorded_time = some t) (_htol : 0 ≤ tolMicros)
    (_hout : c.progress_ms * 1000 - t < 0 ∨
      intervalMicros + reqMicros + tolMicros ≤ c.progress_ms * 1000 - t) :
    tickDbAfter (loopTick intervalMicros db st (.ok (some c)) reqMicros) = some db :=
  tickDbAfter_ok intervalMicros db st (some c) reqMicros

/-- Witness for C1: the spec's 10x-interval forward jump (recorded 10s, sampled 25s,
interval 1.5s, latency 0.1s, tolerance 0) credits nothing. -/
theorem C1_witness :
    (0 : Int) ≤ 0 ∧
    tickDbAfter (loopTick 1500000 [{ id := 1, name := "rock", listened_time := 7 }]
        { recorded_song := some { song_id := "A", genres := ["rock"], progress_ms := 10000 },
          recorded_time := some 10000000 }
        (.ok (some { song_id := "A", genres := ["rock"], progress_ms := 25000 })) 100000)
      = some [{ id := 1, name := "rock", listened_time := 7 }] :=
  ⟨le_refl 0,
    C1_out_of_bounds_delta_credits_zero 1500000 100000 0
      [{ id := 1, name := "rock", listened_time := 7 }]
      { recorded_song := some { song_id := "A", genres := ["rock"], progress_ms := 10000 },
        recorded_time := some 10000000 }
      { song_id := "A", genres := ["rock"], progress_ms := 25000 }
      { song_id := "A", genres := ["rock"], progress_ms := 10000 }
      10000000 rfl rfl rfl (le_refl 0) (Or.inr (by norm_num))⟩

/-- C2's failing tick, evaluated on the code: same track, elapsed progress advanced
by exactly the poll interval (10s to 11.5s at interval 1.5s, latency 0.1s), with
genre "rock" present in the table.  The delta is accepted by the guard, but the
crediting block dies on `db.get_genre_by_name` — a method `DatabaseManager` does
not define — and `__exit__` suppresses the `AttributeError`, so no lookup, no
creation and no increment happen: the table is returned unchanged instead of being
credited by the interval. -/
theorem C2_inbounds_tick_credits_nothing :
    loopTick 1500000 [{ id := 1, name := "rock", listened_time := 7 }]
        { recorded_song := some { song_id := "A", genres := ["rock"], progress_ms := 10000 },
          recorded_time := some 10000000 }
        (.ok (some { song_id := "A", genres := ["rock"], progress_ms := 11500 })) 100000
      = .next [{ id := 1, name := "rock", listened_time := 7 }]
          { recorded_song := some { song_id := "A", genres := ["rock"], progress_ms := 10000 },
            recorded_time := some 11500000 }
          [missingMethodMsg] := by
  decide

/-- Counterexample to C4 as stated: on a track change (recorded track "A", sampled
track "B") the tick re-baselines only the recorded elapsed time; the recorded track
identity stays "A" instead of becoming the current sample "B". -/
theorem C4_counterexample :
    tickStateAfter (loopTick 1500000 []
        { recorded_song := some { song_id := "A", genres := ["rock"], progress_ms := 0 },
          recorded_time := some 10000000 }
        (.ok (some { song_id := "B", genres := ["pop"], progress_ms := 1000 })) 100000)
      = some
          { recorded_song := some { song_id := "A", genres := ["rock"], progress_ms := 0 },
            recorded_time := some 1000000 } ∧
    ({ song_id := "A", genres := ["rock"], progress_ms := 0 } : CurrentTrack)
      ≠ { song_id := "B", genres := ["pop"], progress_ms := 1000 } := by
  decide

/-- C4 (amended).  After every tick whose sample is a track, the recorded elapsed
time equals the sample's progress regardless of branch, but the recorded track is
re-baselined only when no track was previously recorded (`recorded_song` is
assigned solely under `if not recorded_song`); on a track change it keeps its old
value. -/
theorem C4_rebaseline_time_only (intervalMicros : Int) (db : GenreTable)
    (st : TrackerState) (c : CurrentTrack) (req : Int) :
    tickStateAfter (loopTick intervalMicros db st (.ok (some c)) req)
      = some
          { recorded_song := some (st.recorded_song.getD c),
            recorded_time := some (c.progress_ms * 1000) } := by
  simp only [loopTick]
  split_ifs <;> rfl

/-- Counterexample to C9 as stated: a tick on which the sampler call raises (here a
connection error from `requests`) terminates the polling loop — nothing in
`_currently_listening_update_loop` catches it, so the exception escapes the thread
target and there is no next tick state. -/
theorem C9_counterexample :
    loopTick 1500000 [] { recorded_song := none, recorded_time := none }
        (.error "requests.exceptions.ConnectionError") 100000
      = .crashed "requests.exceptions.ConnectionError" ∧
    tickStateAfter (loopTick 1500000 [] { recorded_song := none, recorded_time := none }
        (.error "requests.exceptions.ConnectionError") 100000) = none :=
  ⟨rfl, rfl⟩

/-- C9 (amended).  Repository errors inside a tick (the `AttributeError` raised in
the crediting block) are suppressed by `DatabaseManager.__exit__`: every tick whose
sampler call returns normally reaches the next iteration with the genre table
unchanged (no credit).  A sampler error, by contrast, escapes the loop and kills
it. -/
theorem C9_sampler_errors_kill_loop (intervalMicros : Int) (db : GenreTable)
    (st : TrackerState) (req : Int) :
    (∀ msg, loopTick intervalMicros db st (.error msg) req = .crashed msg) ∧
    (∀ s, tickDbAfter (loopTick intervalMicros db st (.ok s) req) = some db) :=
  ⟨fun _ => rfl, fun s => tickDbAfter_ok intervalMicros db st s req⟩
